import Mathlib

/-!
Shallow embedding of quantnn.mrnn (file src/quantnn/mrnn.py): the
Quantiles / Density / Mean target representations and the MRNN dispatch
layer.  The numeric modules quantnn.quantiles (imported as qq) and
quantnn.density (imported as qd), together with the helpers
quantnn.generic and quantnn.utils, are not part of the sources of this
repository; the definitions for them below are modelled from the
specification and are marked as such in their doc comments.

Tensors are modelled as one-dimensional rational vectors (a single
batch element along the quantile/bin axis); Python exceptions are
modelled by the Err type, and every fallible call returns
Except Err.  Methods of the representation classes additionally
return the post-call state of the object, so that the absence of
mutation is a provable statement.
-/

/-- A tensor: one batch element, values along the quantile/bin axis. -/
abbrev Tensor := List ℚ

/-- The Python exception classes that the embedded code can raise. -/
inductive Err where
  | valueError (msg : String)
  | keyError (key : String)
  | attributeError (attr : String)
  | typeError (msg : String)
  | domainError (msg : String)
deriving Repr, DecidableEq

/-- A prediction value: a single tensor or a mapping from output key to tensor. -/
inductive Prediction where
  | tensor (t : Tensor)
  | dict (entries : List (String × Tensor))
deriving Repr, DecidableEq

/-- The bins attribute of a Density target: a flat array of bin edges or a
per-key mapping of edge arrays. -/
inductive BinSpec where
  | flat (edges : Tensor)
  | keyed (entries : List (String × Tensor))
deriving Repr, DecidableEq

/-- A value returned by one representation-level query: Python None, a
tensor, a pair of tensors (abscissae and ordinates), or a scalar. -/
inductive RVal where
  | none
  | tensor (t : Tensor)
  | pair (a b : Tensor)
  | scalar (x : ℚ)
deriving Repr, DecidableEq

/-- A value returned by an MRNN-level query: the single-output value or a
mapping from output key to per-key value. -/
inductive MRes where
  | single (v : RVal)
  | table (entries : List (String × RVal))
deriving Repr, DecidableEq

/-- Whether a call returned normally. -/
def isOk {α : Type} : Except Err α → Bool
  | Except.ok _ => true
  | Except.error _ => false

/-- Equality of call results is decidable, so concrete evaluations can
be settled by computation. -/
instance {α : Type} [DecidableEq α] : DecidableEq (Except Err α) := fun a b =>
  match a, b with
  | Except.ok x, Except.ok y =>
    match decEq x y with
    | isTrue h => isTrue (by rw [h])
    | isFalse h => isFalse (by intro he; injection he; contradiction)
  | Except.ok _, Except.error _ => isFalse (by intro he; injection he)
  | Except.error _, Except.ok _ => isFalse (by intro he; injection he)
  | Except.error e1, Except.error e2 =>
    match decEq e1 e2 with
    | isTrue h => isTrue (by rw [h])
    | isFalse h => isFalse (by intro he; injection he; contradiction)

/-- The state of an object after a method call: the returned state on
normal return, the unchanged pre-state when the call raised. -/
def postState {α σ : Type} (r : Except Err (α × σ)) (pre : σ) : σ :=
  match r with
  | Except.ok p => p.2
  | Except.error _ => pre

/-- Pair a method result with the post-call state of the object.  Every
method of the representation classes in the source reads its attributes
into locals and never assigns to self, so each returns self unchanged. -/
def attach {σ α : Type} (self : σ) (e : Except Err α) : Except Err (α × σ) :=
  e.map fun v => (v, self)

/-- Modelled from the spec: a positive weight standing in for the
exponential inside softmax.  quantnn.generic.softmax is not under src/;
the spec (section 6) only requires a normalized positive mass function
along the axis, and no claim observes the numeric values of softmax. -/
def posWeight (x : ℚ) : ℚ := 1 + x * x

/-- Modelled from the spec: softmax along the bin axis of a tensor. -/
def softmaxT (t : Tensor) : Tensor :=
  let s := (t.map posWeight).sum
  t.map fun x => posWeight x / s

/-- Modelled from the spec: softmax applied to a prediction value.  A
mapping is not a tensor, so applying the array backend softmax to a
dict raises a type error. -/
def softmaxP : Prediction → Except Err Tensor
  | Prediction.tensor t => Except.ok (softmaxT t)
  | Prediction.dict _ => Except.error (Err.typeError "softmax expects a tensor, not a mapping")

/-- Coerce an argument that the numeric routines use as an array: a
mapping raises a type error. -/
def asTensorArg : Prediction → Except Err Tensor
  | Prediction.tensor t => Except.ok t
  | Prediction.dict _ => Except.error (Err.typeError "expected an array but got a mapping")

/-- A None threshold compared against numbers raises a type error inside
the numeric routines. -/
def optThreshold : Option ℚ → Except Err ℚ
  | some v => Except.ok v
  | none => Except.error (Err.typeError "comparison between None and a number is not supported")

/-- Widths of consecutive intervals of an edge list. -/
def widths (e : List ℚ) : List ℚ :=
  (e.zip e.tail).map fun p => p.2 - p.1

/-- Piecewise-linear interpolation through the given (x, f) points, with
flat extrapolation before the first and after the last point. -/
def interpPL : List (ℚ × ℚ) → ℚ → ℚ
  | [], _ => 0
  | [p], _ => p.2
  | p :: q :: rest, y =>
    if y ≤ p.1 then p.2
    else if y ≤ q.1 then
      if q.1 = p.1 then q.2
      else p.2 + (q.2 - p.2) * (y - p.1) / (q.1 - p.1)
    else interpPL (q :: rest) y

/-- Inverse-CDF evaluation: interpolate the abscissa at a given ordinate. -/
def invCDF (a f : Tensor) (tau : ℚ) : ℚ := interpPL (f.zip a) tau

/-- Per-segment slopes of a piecewise-linear function given as points. -/
def segVals (pts : List (ℚ × ℚ)) : List ℚ :=
  (pts.zip pts.tail).map fun pq => (pq.2.2 - pq.1.2) / (pq.2.1 - pq.1.1)

/-- First moment of a piecewise-linear CDF given as points: segment
midpoints weighted by segment probability mass. -/
def pmeanPL (pts : List (ℚ × ℚ)) : ℚ :=
  ((pts.zip pts.tail).map fun pq => (pq.1.1 + pq.2.1) / 2 * (pq.2.2 - pq.1.2)).sum

/-- Per-segment approximation of the CRPS integrand over a piecewise
CDF given as points. -/
def crpsPL (pts : List (ℚ × ℚ)) (y : ℚ) : ℚ :=
  ((pts.zip pts.tail).map fun pq =>
    (pq.2.1 - pq.1.1) * ((pq.1.2 + pq.2.2) / 2 - (if y ≤ pq.1.1 then 1 else 0)) ^ 2).sum

/-- The sampling fractions used in place of random uniform draws: the
midpoints (2i+1)/(2n).  The randomness of the missing numeric module is
abstracted by these fixed fractions; no claim observes sampled values. -/
def fractions (n : Nat) : List ℚ :=
  (List.range n).map fun i => ((2 * i + 1 : ℕ) : ℚ) / ((2 * n : ℕ) : ℚ)

/-- Append the upper synthetic endpoint 2*y_k - y_(k-1) to a list of at
least two predicted quantile values. -/
def extendHigh : List ℚ → List ℚ
  | [] => []
  | [a] => [a]
  | [a, b] => [a, b, 2 * b - a]
  | a :: b :: c :: rest => a :: extendHigh (b :: c :: rest)

/-- Modelled from the spec (section 4.1): quantnn.quantiles.cdf is not
under src/.  The piecewise-linear CDF: abscissae are the predicted
values extended by the synthetic endpoints 2*y_1 - y_2 and
2*y_k - y_(k-1); ordinates are 0, the quantile fractions, 1.  Fails
with a domain error when fewer than two quantiles are predicted. -/
def qq.cdf (y_pred quantiles : Tensor) (_quantile_axis : Nat) :
    Except Err (Tensor × Tensor) :=
  match y_pred with
  | y1 :: y2 :: rest =>
    Except.ok ((2 * y1 - y2) :: extendHigh (y1 :: y2 :: rest), 0 :: quantiles ++ [1])
  | _ => Except.error (Err.domainError "the quantile axis must hold at least two quantiles")

/-- Modelled from the spec (section 4.1): derivative of the piecewise
linear CDF, one density value per segment. -/
def qq.pdf (y_pred quantiles : Tensor) (quantile_axis : Nat) :
    Except Err (Tensor × Tensor) := do
  let (a, f) ← qq.cdf y_pred quantiles quantile_axis
  pure (a, segVals (a.zip f))

/-- Modelled from the spec (section 4.1): inverse-CDF sampling, with the
uniform draws abstracted by the fixed fractions. -/
def qq.sample_posterior (y_pred quantiles : Tensor) (n_samples : Nat)
    (quantile_axis : Nat) : Except Err Tensor := do
  let (a, f) ← qq.cdf y_pred quantiles quantile_axis
  pure ((fractions n_samples).map (invCDF a f))

/-- Modelled from the spec (sections 4.1, 9): first moment of the
piecewise-linear CDF. -/
def qq.posterior_mean (y_pred quantiles : Tensor) (quantile_axis : Nat) :
    Except Err ℚ := do
  let (a, f) ← qq.cdf y_pred quantiles quantile_axis
  pure (pmeanPL (a.zip f))

/-- Modelled from the spec (section 4.1): samples from a Gaussian fit,
abstracted (the spec leaves the estimator open and no claim observes the
values) as copies of the posterior mean. -/
def qq.sample_posterior_gaussian_fit (y_pred quantiles : Tensor)
    (n_samples : Nat) (quantile_axis : Nat) : Except Err Tensor := do
  let mu ← qq.posterior_mean y_pred quantiles quantile_axis
  pure (List.replicate n_samples mu)

/-- Modelled from the spec (section 4.1): CRPS per true value, computed
segment by segment over the piecewise-linear CDF. -/
def qq.crps (y_pred : Tensor) (y_true : Prediction) (quantiles : Tensor)
    (quantile_axis : Nat) : Except Err Tensor := do
  let yt ← asTensorArg y_true
  let (a, f) ← qq.cdf y_pred quantiles quantile_axis
  pure (yt.map (crpsPL (a.zip f)))

/-- Modelled from the spec (section 4.1): F(y) read off the piecewise
linear CDF, flat beyond the endpoints. -/
def qq.probability_less_than (y_pred quantiles : Tensor) (y : Option ℚ)
    (quantile_axis : Nat) : Except Err ℚ := do
  let yv ← optThreshold y
  let (a, f) ← qq.cdf y_pred quantiles quantile_axis
  pure (interpPL (a.zip f) yv)

/-- Modelled from the spec (section 4.1): 1 - F(y) over the piecewise
linear CDF. -/
def qq.probability_larger_than (y_pred quantiles : Tensor) (y : Option ℚ)
    (quantile_axis : Nat) : Except Err ℚ := do
  let yv ← optThreshold y
  let (a, f) ← qq.cdf y_pred quantiles quantile_axis
  pure (1 - interpPL (a.zip f) yv)

/-- Modelled from the spec (section 4.1): inverse-CDF evaluation at the
caller-supplied fractions. -/
def qq.posterior_quantiles (y_pred quantiles new_quantiles : Tensor)
    (quantile_axis : Nat) : Except Err Tensor := do
  let (a, f) ← qq.cdf y_pred quantiles quantile_axis
  pure (new_quantiles.map (invCDF a f))

/-- Modelled from the spec (section 4.2): the numeric density routines
need a flat array of bin edges; a per-key mapping handed to them raises
a type error. -/
def qd.asEdges : BinSpec → Except Err Tensor
  | BinSpec.flat e => Except.ok e
  | BinSpec.keyed _ => Except.error (Err.typeError "a mapping of bins is not a valid array of bin edges")

/-- Modelled from the spec (section 4.2): quantnn.density.normalize is
not under src/.  Divides the per-bin masses by the bin widths; the edge
count must exceed the bin count by one. -/
def qd.normalize (y_pred : Tensor) (bins : BinSpec) (_bin_axis : Nat) :
    Except Err Tensor := do
  let e ← qd.asEdges bins
  if e.length = y_pred.length + 1 then
    pure ((y_pred.zip (widths e)).map fun p => p.1 / p.2)
  else
    Except.error (Err.domainError "bin edges must number one more than bins")

/-- Modelled from the spec (section 4.2): the step CDF at the bin edges,
0 at the first edge and 1 at the last, from the normalized cumulative
bin masses. -/
def qd.cdfPts (y_pred : Tensor) (bins : BinSpec) :
    Except Err (Tensor × Tensor) := do
  let e ← qd.asEdges bins
  if e.length = y_pred.length + 1 then
    let masses := (y_pred.zip (widths e)).map fun p => p.1 * p.2
    let total := masses.sum
    if total = 0 then
      Except.error (Err.domainError "total probability mass is zero")
    else
      pure (e, (List.scanl (fun a b => a + b) 0 masses).map fun c => c / total)
  else
    Except.error (Err.domainError "bin edges must number one more than bins")

/-- Modelled from the spec (section 4.2): the CDF over the bin edges. -/
def qd.cdf (y_pred : Tensor) (bins : BinSpec) (_bin_axis : Nat) :
    Except Err (Tensor × Tensor) :=
  qd.cdfPts y_pred bins

/-- Modelled from the spec (section 4.2): the normalized PDF over bins. -/
def qd.pdf (y_pred : Tensor) (bins : BinSpec) (bin_axis : Nat) :
    Except Err (Tensor × Tensor) := do
  let e ← qd.asEdges bins
  let d ← qd.normalize y_pred bins bin_axis
  pure (e, d)

/-- Modelled from the spec (section 4.2): inverse-CDF sampling over the
step CDF, uniform draws abstracted by the fixed fractions. -/
def qd.sample_posterior (y_pred : Tensor) (bins : BinSpec) (n_samples : Nat)
    (_bin_axis : Nat) : Except Err Tensor := do
  let (e, f) ← qd.cdfPts y_pred bins
  pure ((fractions n_samples).map (invCDF e f))

/-- Modelled from the spec (section 4.2): first moment of the step CDF. -/
def qd.posterior_mean (y_pred : Tensor) (bins : BinSpec) (_bin_axis : Nat) :
    Except Err ℚ := do
  let (e, f) ← qd.cdfPts y_pred bins
  pure (pmeanPL (e.zip f))

/-- Modelled from the spec (section 4.2): samples from a Gaussian fit,
abstracted as copies of the posterior mean. -/
def qd.sample_posterior_gaussian_fit (y_pred : Tensor) (bins : BinSpec)
    (n_samples : Nat) (bin_axis : Nat) : Except Err Tensor := do
  let mu ← qd.posterior_mean y_pred bins bin_axis
  pure (List.replicate n_samples mu)

/-- Modelled from the spec (section 4.2): CRPS per true value over the
step CDF. -/
def qd.crps (y_pred : Tensor) (y_true : Prediction) (bins : BinSpec)
    (_bin_axis : Nat) : Except Err Tensor := do
  let yt ← asTensorArg y_true
  let (e, f) ← qd.cdfPts y_pred bins
  pure (yt.map (crpsPL (e.zip f)))

/-- Modelled from the spec (section 4.2): 1 - F(y) over the step CDF. -/
def qd.probability_larger_than (y_pred : Tensor) (bins : BinSpec)
    (y : Option ℚ) (_bin_axis : Nat) : Except Err ℚ := do
  let yv ← optThreshold y
  let (e, f) ← qd.cdfPts y_pred bins
  pure (1 - interpPL (e.zip f) yv)

/-- Modelled from the spec (section 4.2): inverse-CDF evaluation at the
caller-supplied fractions over the step CDF. -/
def qd.posterior_quantiles (y_pred : Tensor) (bins : BinSpec)
    (new_quantiles : Tensor) (_bin_axis : Nat) : Except Err Tensor := do
  let (e, f) ← qd.cdfPts y_pred bins
  pure (new_quantiles.map (invCDF e f))

/-- The Quantiles target representation (src/quantnn/mrnn.py lines 26-206). -/
structure Quantiles where
  quantile_axis : Nat
  quantiles : Tensor
deriving Repr, DecidableEq

/-- Quantiles.__init__ (lines 31-37): sets quantile_axis to 1 and stores
the quantiles. -/
def Quantiles.init (quantiles : Tensor) : Quantiles :=
  { quantile_axis := 1, quantiles := quantiles }

/-- Quantiles.predict (lines 53-58): identity. -/
def Quantiles.predict (self : Quantiles) (y_pred : Tensor) :
    Except Err (Tensor × Quantiles) :=
  attach self (pure y_pred)

/-- Quantiles.cdf (lines 60-72): converts self.quantiles to the array
type of the prediction locally and calls qq.cdf. -/
def Quantiles.cdf (self : Quantiles) (y_pred : Tensor) :
    Except Err (RVal × Quantiles) :=
  attach self ((qq.cdf y_pred self.quantiles self.quantile_axis).map fun p => RVal.pair p.1 p.2)

/-- Quantiles.pdf (lines 74-86). -/
def Quantiles.pdf (self : Quantiles) (y_pred : Tensor) :
    Except Err (RVal × Quantiles) :=
  attach self ((qq.pdf y_pred self.quantiles self.quantile_axis).map fun p => RVal.pair p.1 p.2)

/-- Quantiles.sample_posterior (lines 88-102). -/
def Quantiles.sample_posterior (self : Quantiles) (y_pred : Tensor)
    (n_samples : Nat) : Except Err (RVal × Quantiles) :=
  attach self ((qq.sample_posterior y_pred self.quantiles n_samples self.quantile_axis).map RVal.tensor)

/-- Quantiles.sample_posterior_gaussian_fit (lines 104-119). -/
def Quantiles.sample_posterior_gaussian_fit (self : Quantiles) (y_pred : Tensor)
    (n_samples : Nat) : Except Err (RVal × Quantiles) :=
  attach self ((qq.sample_posterior_gaussian_fit y_pred self.quantiles n_samples self.quantile_axis).map RVal.tensor)

/-- Quantiles.posterior_mean (lines 121-133). -/
def Quantiles.posterior_mean (self : Quantiles) (y_pred : Tensor) :
    Except Err (RVal × Quantiles) :=
  attach self ((qq.posterior_mean y_pred self.quantiles self.quantile_axis).map RVal.scalar)

/-- Quantiles.crps (lines 135-148). -/
def Quantiles.crps (self : Quantiles) (y_pred : Tensor) (y_true : Prediction) :
    Except Err (RVal × Quantiles) :=
  attach self ((qq.crps y_pred y_true self.quantiles self.quantile_axis).map RVal.tensor)

/-- Quantiles.probability_larger_than (lines 150-165). -/
def Quantiles.probability_larger_than (self : Quantiles) (y_pred : Tensor)
    (y : Option ℚ) : Except Err (RVal × Quantiles) :=
  attach self ((qq.probability_larger_than y_pred self.quantiles y self.quantile_axis).map RVal.scalar)

/-- Quantiles.probability_less_than (lines 167-182). -/
def Quantiles.probability_less_than (self : Quantiles) (y_pred : Tensor)
    (y : Option ℚ) : Except Err (RVal × Quantiles) :=
  attach self ((qq.probability_less_than y_pred self.quantiles y self.quantile_axis).map RVal.scalar)

/-- Quantiles.posterior_quantiles (lines 184-200). -/
def Quantiles.posterior_quantiles (self : Quantiles) (y_pred : Tensor)
    (new_quantiles : Tensor) : Except Err (RVal × Quantiles) :=
  attach self ((qq.posterior_quantiles y_pred self.quantiles new_quantiles self.quantile_axis).map RVal.tensor)

/-- The Density target representation (lines 209-413).  The bin_axis
field is an Option: none models the attribute never having been
assigned by __init__. -/
structure Density where
  bin_axis : Option Nat
  bins : BinSpec
deriving Repr, DecidableEq

/-- Density.__init__ (lines 214-221): the bin_axis attribute is assigned
(to 1) only when the bin_axis argument is None; an explicit argument is
discarded and leaves the attribute unset. -/
def Density.init (bins : BinSpec) (bin_axis : Option Int) : Density :=
  { bin_axis := match bin_axis with | none => some 1 | some _ => none,
    bins := bins }

/-- Reading self.bin_axis: raises AttributeError when the attribute was
never assigned. -/
def Density.getBinAxis (self : Density) : Except Err Nat :=
  match self.bin_axis with
  | some a => Except.ok a
  | none => Except.error (Err.attributeError "bin_axis")

/-- Density.predict (lines 237-250): softmax, then normalize with
self.bins and self.bin_axis. -/
def Density.predict (self : Density) (y_pred : Tensor) :
    Except Err (Tensor × Density) :=
  attach self (do
    let b := self.bins
    let sm := softmaxT y_pred
    let ax ← self.getBinAxis
    qd.normalize sm b ax)

/-- Density.cdf (lines 252-264): self.bin_axis is read while the call
arguments are evaluated, before qd.cdf runs. -/
def Density.cdf (self : Density) (y_pred : Tensor) :
    Except Err (RVal × Density) :=
  attach self (do
    let b := self.bins
    let ax ← self.getBinAxis
    (qd.cdf y_pred b ax).map fun p => RVal.pair p.1 p.2)

/-- Density.pdf (lines 266-278). -/
def Density.pdf (self : Density) (y_pred : Tensor) :
    Except Err (RVal × Density) :=
  attach self (do
    let b := self.bins
    let ax ← self.getBinAxis
    (qd.pdf y_pred b ax).map fun p => RVal.pair p.1 p.2)

/-- Density.sample_posterior (lines 280-294). -/
def Density.sample_posterior (self : Density) (y_pred : Tensor)
    (n_samples : Nat) : Except Err (RVal × Density) :=
  attach self (do
    let b := self.bins
    let ax ← self.getBinAxis
    (qd.sample_posterior y_pred b n_samples ax).map RVal.tensor)

/-- Density.sample_posterior_gaussian_fit (lines 296-311). -/
def Density.sample_posterior_gaussian_fit (self : Density) (y_pred : Tensor)
    (n_samples : Nat) : Except Err (RVal × Density) :=
  attach self (do
    let b := self.bins
    let ax ← self.getBinAxis
    (qd.sample_posterior_gaussian_fit y_pred b n_samples ax).map RVal.tensor)

/-- Density.posterior_mean (lines 313-326). -/
def Density.posterior_mean (self : Density) (y_pred : Tensor) :
    Except Err (RVal × Density) :=
  attach self (do
    let b := self.bins
    let ax ← self.getBinAxis
    (qd.posterior_mean y_pred b ax).map RVal.scalar)

/-- Density.crps (lines 328-341). -/
def Density.crps (self : Density) (y_pred : Tensor) (y_true : Prediction) :
    Except Err (RVal × Density) :=
  attach self (do
    let b := self.bins
    let ax ← self.getBinAxis
    (qd.crps y_pred y_true b ax).map RVal.tensor)

/-- Density.probability_larger_than (lines 343-358). -/
def Density.probability_larger_than (self : Density) (y_pred : Tensor)
    (y : Option ℚ) : Except Err (RVal × Density) :=
  attach self (do
    let b := self.bins
    let ax ← self.getBinAxis
    (qd.probability_larger_than y_pred b y ax).map RVal.scalar)

/-- Density.probability_less_than (lines 360-373): the source omits the
required bins argument in the call qd.probability_less_than(y_pred=...,
y=..., bin_axis=self.bin_axis), so after the arguments (including
self.bin_axis) are evaluated the call raises a TypeError. -/
def Density.probability_less_than (self : Density) (_y_pred : Tensor)
    (_y : Option ℚ) : Except Err (RVal × Density) :=
  attach self (do
    let _ ← self.getBinAxis
    (Except.error (Err.typeError "qd.probability_less_than missing required positional argument bins") : Except Err RVal))

/-- Density.posterior_quantiles (lines 375-391). -/
def Density.posterior_quantiles (self : Density) (y_pred : Tensor)
    (new_quantiles : Tensor) : Except Err (RVal × Density) :=
  attach self (do
    let b := self.bins
    let ax ← self.getBinAxis
    (qd.posterior_quantiles y_pred b new_quantiles ax).map RVal.tensor)

/-- Density._post_process_prediction (lines 399-413; leading underscore
dropped): resolves the bin edges (selecting by key when self.bins is a
mapping), then softmax of the whole y_pred argument, then normalize with
self.bin_axis. -/
def Density.post_process_prediction (self : Density) (y_pred : Prediction)
    (bins : Option Tensor) (key : Option String) :
    Except Err (Tensor × Density) :=
  attach self (do
    let binsR : BinSpec ←
      match bins with
      | some b => pure (BinSpec.flat b)
      | none =>
        match self.bins with
        | BinSpec.keyed mm =>
          (match key with
           | some k =>
             (match mm.lookup k with
              | some e => pure (BinSpec.flat e)
              | none => Except.error (Err.keyError k))
           | none => Except.error (Err.keyError "None"))
        | BinSpec.flat e => pure (BinSpec.flat e)
    let sm ← softmaxP y_pred
    let ax ← self.getBinAxis
    qd.normalize sm binsR ax)

/-- The Mean target representation (lines 417-437). -/
inductive Mean where
  | mk
deriving Repr, DecidableEq

/-- Mean.predict (lines 424-425): identity. -/
def Mean.predict (self : Mean) (y_pred : Tensor) :
    Except Err (Tensor × Mean) :=
  attach self (pure y_pred)

/-- Mean.posterior_mean (lines 430-431): identity. -/
def Mean.posterior_mean (self : Mean) (y_pred : Tensor) :
    Except Err (RVal × Mean) :=
  attach self (pure (RVal.tensor y_pred))

/-- A target representation: one of the three classes. -/
inductive Target where
  | quantiles (q : Quantiles)
  | density (d : Density)
  | mean (m : Mean)
deriving Repr, DecidableEq

/-- Python hasattr on a target representation: the set of method
attributes each class defines in the source. -/
def Target.hasattr (t : Target) (attr : String) : Bool :=
  match t with
  | Target.quantiles _ =>
    ["get_loss", "predict", "cdf", "pdf", "sample_posterior",
     "sample_posterior_gaussian_fit", "posterior_mean", "crps",
     "probability_larger_than", "probability_less_than",
     "posterior_quantiles"].contains attr
  | Target.density _ =>
    ["get_loss", "predict", "cdf", "pdf", "sample_posterior",
     "sample_posterior_gaussian_fit", "posterior_mean", "crps",
     "probability_larger_than", "probability_less_than",
     "posterior_quantiles", "post_process_prediction"].contains attr
  | Target.mean _ =>
    ["get_loss", "predict", "posterior_mean"].contains attr

/-- Attribute access followed by a call: obj.predict(y). -/
def Target.callPredict : Target → Tensor → Except Err Tensor
  | Target.quantiles q, y => (q.predict y).map Prod.fst
  | Target.density d, y => (d.predict y).map Prod.fst
  | Target.mean m, y => (m.predict y).map Prod.fst

/-- obj.cdf(y): a Mean object has no cdf attribute, so the access raises
AttributeError. -/
def Target.callCdf : Target → Tensor → Except Err RVal
  | Target.quantiles q, y => (q.cdf y).map Prod.fst
  | Target.density d, y => (d.cdf y).map Prod.fst
  | Target.mean _, _ => Except.error (Err.attributeError "cdf")

/-- obj.pdf(y). -/
def Target.callPdf : Target → Tensor → Except Err RVal
  | Target.quantiles q, y => (q.pdf y).map Prod.fst
  | Target.density d, y => (d.pdf y).map Prod.fst
  | Target.mean _, _ => Except.error (Err.attributeError "pdf")

/-- obj.sample_posterior(y, n_samples). -/
def Target.callSamplePosterior : Target → Tensor → Nat → Except Err RVal
  | Target.quantiles q, y, n => (q.sample_posterior y n).map Prod.fst
  | Target.density d, y, n => (d.sample_posterior y n).map Prod.fst
  | Target.mean _, _, _ => Except.error (Err.attributeError "sample_posterior")

/-- obj.sample_posterior_gaussian_fit(y, n_samples). -/
def Target.callSampleGaussianFit : Target → Tensor → Nat → Except Err RVal
  | Target.quantiles q, y, n => (q.sample_posterior_gaussian_fit y n).map Prod.fst
  | Target.density d, y, n => (d.sample_posterior_gaussian_fit y n).map Prod.fst
  | Target.mean _, _, _ => Except.error (Err.attributeError "sample_posterior_gaussian_fit")

/-- obj.posterior_mean(y): all three classes define it. -/
def Target.callPosteriorMean : Target → Tensor → Except Err RVal
  | Target.quantiles q, y => (q.posterior_mean y).map Prod.fst
  | Target.density d, y => (d.posterior_mean y).map Prod.fst
  | Target.mean m, y => (m.posterior_mean y).map Prod.fst

/-- obj.crps(y, y_true). -/
def Target.callCrps : Target → Tensor → Prediction → Except Err RVal
  | Target.quantiles q, y, yt => (q.crps y yt).map Prod.fst
  | Target.density d, y, yt => (d.crps y yt).map Prod.fst
  | Target.mean _, _, _ => Except.error (Err.attributeError "crps")

/-- obj.probability_larger_than(y, threshold). -/
def Target.callProbabilityLargerThan : Target → Tensor → Option ℚ → Except Err RVal
  | Target.quantiles q, y, thr => (q.probability_larger_than y thr).map Prod.fst
  | Target.density d, y, thr => (d.probability_larger_than y thr).map Prod.fst
  | Target.mean _, _, _ => Except.error (Err.attributeError "probability_larger_than")

/-- obj.probability_less_than(y, threshold). -/
def Target.callProbabilityLessThan : Target → Tensor → Option ℚ → Except Err RVal
  | Target.quantiles q, y, thr => (q.probability_less_than y thr).map Prod.fst
  | Target.density d, y, thr => (d.probability_less_than y thr).map Prod.fst
  | Target.mean _, _, _ => Except.error (Err.attributeError "probability_less_than")

/-- obj.posterior_quantiles(y, new_quantiles). -/
def Target.callPosteriorQuantiles : Target → Tensor → Tensor → Except Err RVal
  | Target.quantiles q, y, qs => (q.posterior_quantiles y qs).map Prod.fst
  | Target.density d, y, qs => (d.posterior_quantiles y qs).map Prod.fst
  | Target.mean _, _, _ => Except.error (Err.attributeError "posterior_quantiles")

/-- obj._post_process_prediction(y, bins, key): only Density defines it. -/
def Target.callPostProcess : Target → Prediction → Option Tensor → Option String → Except Err RVal
  | Target.density d, p, bins, key => (d.post_process_prediction p bins key).map fun r => RVal.tensor r.1
  | Target.quantiles _, _, _, _ => Except.error (Err.attributeError "post_process_prediction")
  | Target.mean _, _, _, _ => Except.error (Err.attributeError "post_process_prediction")

/-- The MRNN dispatch layer (lines 461-1014).  Training-related state
(n_inputs, the backend model object) is reduced to the forward function
model; losses is the target mapping and transformation the
optional invertible output transform. -/
structure MRNN where
  losses : List (String × Target)
  transformation : Option (Tensor → Tensor)
  model : Tensor → Prediction

/-- Python self.losses[key] with key an optional string: a None key or a
missing key raises KeyError. -/
def lookupLoss (losses : List (String × Target)) (key : Option String) :
    Except Err Target :=
  match key with
  | none => Except.error (Err.keyError "None")
  | some k =>
    match losses.lookup k with
    | some t => Except.ok t
    | none => Except.error (Err.keyError k)

/-- Python value[k] on a prediction: indexing a mapping looks the key
up (KeyError when absent); indexing a tensor with a string raises a
TypeError. -/
def indexPrediction : Prediction → String → Except Err Tensor
  | Prediction.dict m, k =>
    (match m.lookup k with
     | some t => Except.ok t
     | none => Except.error (Err.keyError k))
  | Prediction.tensor _, _ => Except.error (Err.typeError "tensor indices must be integers, not str")

/-- The inner predict function of MRNN.predict (lines 579-582): invert
the transformation when present, then the representation predict. -/
def predictOne (t : Target) (tr : Option (Tensor → Tensor)) (y : Tensor) :
    Except Err Tensor :=
  Target.callPredict t (match tr with | some f => f y | none => y)

/-- MRNN.predict (lines 560-587).  Modelled from the spec for the part
played by quantnn.utils.apply (not under src/): a mapping prediction is
post-processed per key with self.losses[k] (KeyError when a key is
missing from the target mapping); a single tensor is post-processed with
the single configured representation. -/
def MRNN.predict (self : MRNN) (x : Tensor) : Except Err Prediction :=
  match self.model x with
  | Prediction.dict m =>
    (m.mapM fun (kv : String × Tensor) => do
      let t ← (match self.losses.lookup kv.1 with
               | some t => pure t
               | none => Except.error (Err.keyError kv.1))
      let r ← predictOne t self.transformation kv.2
      pure (kv.1, r)).map Prediction.dict
  | Prediction.tensor y =>
    match self.losses with
    | [kt] => (predictOne kt.2 self.transformation y).map Prediction.tensor
    | _ => Except.error (Err.typeError "single tensor prediction with a non-singleton loss mapping")

/-- The shared prologue of the query methods (for example lines
624-629): use y_pred when given, else predict from x, else raise
ValueError. -/
def MRNN.resolve (self : MRNN) (x : Option Tensor) (y_pred : Option Prediction) :
    Except Err Prediction :=
  match y_pred with
  | some yp => Except.ok yp
  | none =>
    match x with
    | some xv => self.predict xv
    | none => Except.error (Err.valueError "One of the input arguments x or y_pred must be  provided.")

/-- The multi-output loop shared by the query methods (for example lines
634-640): for each key of the prediction, look the representation up in
the target mapping (KeyError aborts), skip it when it lacks the method
attribute, otherwise call and record the result; the first raising call
aborts the loop. -/
def fanOut (losses : List (String × Target)) (meth : String)
    (call : Target → String → Tensor → Except Err RVal) :
    List (String × Tensor) → Except Err (List (String × RVal))
  | [] => Except.ok []
  | (k, v) :: rest =>
    match losses.lookup k with
    | none => Except.error (Err.keyError k)
    | some loss =>
      if loss.hasattr meth then
        match call loss k v with
        | Except.error e => Except.error e
        | Except.ok r =>
          match fanOut losses meth call rest with
          | Except.error e => Except.error e
          | Except.ok rs => Except.ok ((k, r) :: rs)
      else fanOut losses meth call rest

/-- MRNN.cdf (lines 589-640): single-output mode calls
self.losses[key].cdf unconditionally; multi-output mode fans out with a
hasattr guard. -/
def MRNN.cdf (self : MRNN) (x : Option Tensor) (y_pred : Option Prediction)
    (key : Option String) : Except Err MRes := do
  let yp ← self.resolve x y_pred
  match yp with
  | Prediction.tensor t => do
    let loss ← lookupLoss self.losses key
    (Target.callCdf loss t).map MRes.single
  | Prediction.dict entries =>
    (fanOut self.losses "cdf" (fun loss _ v => Target.callCdf loss v) entries).map MRes.table

/-- MRNN.pdf (lines 642-682). -/
def MRNN.pdf (self : MRNN) (x : Option Tensor) (y_pred : Option Prediction)
    (key : Option String) : Except Err MRes := do
  let yp ← self.resolve x y_pred
  match yp with
  | Prediction.tensor t => do
    let loss ← lookupLoss self.losses key
    (Target.callPdf loss t).map MRes.single
  | Prediction.dict entries =>
    (fanOut self.losses "pdf" (fun loss _ v => Target.callPdf loss v) entries).map MRes.table

/-- MRNN.sample_posterior (lines 684-725). -/
def MRNN.sample_posterior (self : MRNN) (x : Option Tensor)
    (y_pred : Option Prediction) (n_samples : Nat) (key : Option String) :
    Except Err MRes := do
  let yp ← self.resolve x y_pred
  match yp with
  | Prediction.tensor t => do
    let loss ← lookupLoss self.losses key
    (Target.callSamplePosterior loss t n_samples).map MRes.single
  | Prediction.dict entries =>
    (fanOut self.losses "sample_posterior"
      (fun loss _ v => Target.callSamplePosterior loss v n_samples) entries).map MRes.table

/-- MRNN.sample_posterior_gaussian_fit (lines 727-767). -/
def MRNN.sample_posterior_gaussian_fit (self : MRNN) (x : Option Tensor)
    (y_pred : Option Prediction) (n_samples : Nat) (key : Option String) :
    Except Err MRes := do
  let yp ← self.resolve x y_pred
  match yp with
  | Prediction.tensor t => do
    let loss ← lookupLoss self.losses key
    (Target.callSampleGaussianFit loss t n_samples).map MRes.single
  | Prediction.dict entries =>
    (fanOut self.losses "sample_posterior_gaussian_fit"
      (fun loss _ v => Target.callSampleGaussianFit loss v n_samples) entries).map MRes.table

/-- MRNN.posterior_mean (lines 769-803). -/
def MRNN.posterior_mean (self : MRNN) (x : Option Tensor)
    (y_pred : Option Prediction) (key : Option String) : Except Err MRes := do
  let yp ← self.resolve x y_pred
  match yp with
  | Prediction.tensor t => do
    let loss ← lookupLoss self.losses key
    (Target.callPosteriorMean loss t).map MRes.single
  | Prediction.dict entries =>
    (fanOut self.losses "posterior_mean"
      (fun loss _ v => Target.callPosteriorMean loss v) entries).map MRes.table

/-- MRNN.crps (lines 805-859): after resolving the prediction, a missing
y_true raises ValueError; single-output mode is guarded by hasattr and
returns None when unsupported; multi-output mode indexes y_true per key. -/
def MRNN.crps (self : MRNN) (x : Option Tensor) (y_pred : Option Prediction)
    (y_true : Option Prediction) (key : Option String) : Except Err MRes := do
  let yp ← self.resolve x y_pred
  let yt ← (match y_true with
            | none => Except.error (Err.valueError "The y_true argument must be provided to calculate the CRPS provided.")
            | some yt => pure yt)
  match yp with
  | Prediction.tensor t => do
    let loss ← lookupLoss self.losses key
    if loss.hasattr "crps" then (Target.callCrps loss t yt).map MRes.single
    else pure (MRes.single RVal.none)
  | Prediction.dict entries =>
    (fanOut self.losses "crps"
      (fun loss k v => do
        let ytk ← indexPrediction yt k
        Target.callCrps loss v (Prediction.tensor ytk)) entries).map MRes.table

/-- MRNN.probability_larger_than (lines 861-905): after resolving the
prediction, a missing threshold raises ValueError; the single-output
branch is guarded by hasattr and returns None when unsupported. -/
def MRNN.probability_larger_than (self : MRNN) (x : Option Tensor)
    (y : Option ℚ) (y_pred : Option Prediction) (key : Option String) :
    Except Err MRes := do
  let yp ← self.resolve x y_pred
  if y.isNone then
    Except.error (Err.valueError "The y argument must be provided to compute the  probability.")
  else
    match yp with
    | Prediction.tensor t => do
      let loss ← lookupLoss self.losses key
      if loss.hasattr "probability_larger_than" then
        (Target.callProbabilityLargerThan loss t y).map MRes.single
      else pure (MRes.single RVal.none)
    | Prediction.dict entries =>
      (fanOut self.losses "probability_larger_than"
        (fun loss _ v => Target.callProbabilityLargerThan loss v y) entries).map MRes.table

/-- MRNN.probability_less_than (lines 907-947): unlike
probability_larger_than, the source performs no check that the threshold
y was provided. -/
def MRNN.probability_less_than (self : MRNN) (x : Option Tensor)
    (y : Option ℚ) (y_pred : Option Prediction) (key : Option String) :
    Except Err MRes := do
  let yp ← self.resolve x y_pred
  match yp with
  | Prediction.tensor t => do
    let loss ← lookupLoss self.losses key
    if loss.hasattr "probability_less_than" then
      (Target.callProbabilityLessThan loss t y).map MRes.single
    else pure (MRes.single RVal.none)
  | Prediction.dict entries =>
    (fanOut self.losses "probability_less_than"
      (fun loss _ v => Target.callProbabilityLessThan loss v y) entries).map MRes.table

/-- MRNN.posterior_quantiles (lines 949-993): its own wording of the
x/y_pred ValueError, then the missing-quantiles ValueError, then
dispatch guarded by hasattr. -/
def MRNN.posterior_quantiles (self : MRNN) (x : Option Tensor)
    (y_pred : Option Prediction) (quantiles : Option Tensor)
    (key : Option String) : Except Err MRes := do
  let yp ← (match y_pred with
            | some v => Except.ok v
            | none =>
              match x with
              | some xv => self.predict xv
              | none => Except.error (Err.valueError "One of the keyword arguments x or y_pred must be provided."))
  match quantiles with
  | none => Except.error (Err.valueError "The quantiles keyword argument must be provided tocalculate the posterior quantiles.")
  | some qs =>
    match yp with
    | Prediction.tensor t => do
      let loss ← lookupLoss self.losses key
      if loss.hasattr "posterior_quantiles" then
        (Target.callPosteriorQuantiles loss t qs).map MRes.single
      else pure (MRes.single RVal.none)
    | Prediction.dict entries =>
      (fanOut self.losses "posterior_quantiles"
        (fun loss _ v => Target.callPosteriorQuantiles loss v qs) entries).map MRes.table

/-- MRNN._post_process_prediction (lines 1000-1014; leading underscore
dropped): in the multi-output branch the source passes the whole y_pred
mapping, and forwards the caller-supplied key, into each supported
representation; keys without the attribute are skipped; a single tensor
without the attribute is returned unchanged. -/
def MRNN.post_process_prediction (self : MRNN) (y_pred : Prediction)
    (bins : Option Tensor) (key : Option String) : Except Err MRes :=
  match y_pred with
  | Prediction.tensor t =>
    match lookupLoss self.losses key with
    | Except.error e => Except.error e
    | Except.ok loss =>
      if loss.hasattr "post_process_prediction" then
        (Target.callPostProcess loss (Prediction.tensor t) bins key).map MRes.single
      else Except.ok (MRes.single (RVal.tensor t))
  | Prediction.dict entries =>
    (fanOut self.losses "post_process_prediction"
      (fun loss _ _ => Target.callPostProcess loss (Prediction.dict entries) bins key)
      entries).map MRes.table

/-- Whether the representation at a key of the target mapping has the
given method attribute. -/
def supported (losses : List (String × Target)) (meth : String) (k : String) : Bool :=
  match losses.lookup k with
  | some t => t.hasattr meth
  | none => false

/-- Every key of a multi-output prediction is present in the target
mapping. -/
def lookupsOk (losses : List (String × Target))
    (entries : List (String × Tensor)) : Bool :=
  entries.all fun kv => (losses.lookup kv.1).isSome

/-- Every per-key call that the fan-out loop would make returns
normally. -/
def callsOk (losses : List (String × Target)) (meth : String)
    (call : Target → String → Tensor → Except Err RVal)
    (entries : List (String × Tensor)) : Bool :=
  entries.all fun kv =>
    match losses.lookup kv.1 with
    | some t => !t.hasattr meth || isOk (call t kv.1 kv.2)
    | none => true

/-- A two-key model, Quantiles at key a and Mean at key b, as in the
spec scenario of section 8. -/
def qRepAB : Quantiles := Quantiles.init [1/10, 9/10]

/-- The two-key MRNN instance used in concrete evaluations. -/
def mAB : MRNN :=
  { losses := [("a", Target.quantiles qRepAB), ("b", Target.mean Mean.mk)],
    transformation := none,
    model := fun _ => Prediction.tensor [] }

/-- A multi-output prediction for mAB. -/
def entriesAB : List (String × Tensor) := [("a", [2, 9]), ("b", [5])]

/-- A matching multi-output ground truth for mAB. -/
def ytAB : Prediction := Prediction.dict [("a", [3]), ("b", [4])]

/-- A Density with a flat edge array and the default bin axis. -/
def dFlat : Density := Density.init (BinSpec.flat [0, 1, 2]) none

/-- A Density whose bins attribute is a per-key mapping. -/
def dKeyed : Density := Density.init (BinSpec.keyed [("a", [0, 1, 2])]) none

/-- An MRNN whose single key holds the keyed-bins Density. -/
def mKeyed : MRNN :=
  { losses := [("a", Target.density dKeyed)],
    transformation := none,
    model := fun _ => Prediction.tensor [] }

@[simp] theorem except_bind_ok {α β : Type} (a : α) (f : α → Except Err β) :
    (Except.ok a >>= f) = f a := rfl

@[simp] theorem except_bind_err {α β : Type} (e : Err) (f : α → Except Err β) :
    ((Except.error e : Except Err α) >>= f) = (Except.error e : Except Err β) := rfl

@[simp] theorem except_map_ok {α β : Type} (a : α) (f : α → β) :
    (Except.ok a : Except Err α).map f = Except.ok (f a) := rfl

@[simp] theorem except_map_err {α β : Type} (e : Err) (f : α → β) :
    (Except.error e : Except Err α).map f = (Except.error e : Except Err β) := rfl

@[simp] theorem except_pure_eq {α : Type} (a : α) :
    (pure a : Except Err α) = Except.ok a := rfl

@[simp] theorem except_map_map {α β γ : Type} (e : Except Err α) (f : α → β) (g : β → γ) :
    (e.map f).map g = e.map fun x => g (f x) := by
  cases e <;> rfl

theorem postState_attach {σ α : Type} (s : σ) (e : Except Err α) :
    postState (attach s e) s = s := by
  cases e <;> rfl

theorem exists_two_cons {l : List ℚ} (h : 2 ≤ l.length) :
    ∃ a b t, l = a :: b :: t := by
  cases l with
  | nil => simp only [List.length_nil] at h; omega
  | cons a l2 =>
    cases l2 with
    | nil => simp only [List.length_cons, List.length_nil] at h; omega
    | cons b t => exact ⟨a, b, t, rfl⟩

theorem fanOut_ok (losses : List (String × Target)) (meth : String)
    (call : Target → String → Tensor → Except Err RVal) :
    ∀ entries : List (String × Tensor),
      lookupsOk losses entries = true →
      callsOk losses meth call entries = true →
      ∃ rs, fanOut losses meth call entries = Except.ok rs ∧
        rs.map Prod.fst =
          (entries.filter fun kv => supported losses meth kv.1).map Prod.fst := by
  intro entries
  induction entries with
  | nil =>
    intro _ _
    exact ⟨[], rfl, rfl⟩
  | cons kv rest ih =>
    intro h1 h2
    obtain ⟨k, v⟩ := kv
    rw [lookupsOk, List.all_cons, Bool.and_eq_true] at h1
    rw [callsOk, List.all_cons, Bool.and_eq_true] at h2
    obtain ⟨h1k, h1rest⟩ := h1
    obtain ⟨h2k, h2rest⟩ := h2
    cases hl : losses.lookup k with
    | none => rw [hl] at h1k; simp at h1k
    | some t =>
      rw [hl] at h2k
      replace h2k : (!t.hasattr meth || isOk (call t k v)) = true := h2k
      cases hattr : t.hasattr meth with
      | false =>
        obtain ⟨rs, hfo, hkeys⟩ := ih h1rest h2rest
        refine ⟨rs, ?_, ?_⟩
        · simp only [fanOut, hl, hattr]
          exact hfo
        · rw [List.filter_cons]
          simp only [supported, hl, hattr]
          simpa using hkeys
      | true =>
        rw [hattr] at h2k
        simp only [Bool.not_true, Bool.false_or] at h2k
        cases hc : call t k v with
        | error e => rw [hc] at h2k; simp [isOk] at h2k
        | ok r =>
          obtain ⟨rs, hfo, hkeys⟩ := ih h1rest h2rest
          refine ⟨(k, r) :: rs, ?_, ?_⟩
          · simp only [fanOut, hl, hattr, hc, hfo]
            exact if_pos trivial
          · rw [List.filter_cons]
            simp only [supported, hl, hattr]
            simpa using hkeys

/-- C8: every query method of the Quantiles, Density and Mean
representations leaves the representation state (quantiles,
quantile_axis, bins, bin_axis) unchanged: the conversion of the stored
quantiles/bins is a local recomputation and is never written back. -/
theorem representation_attributes_unchanged
    (q : Quantiles) (d : Density) (me : Mean) (y : Tensor) (yt : Prediction)
    (thr : Option ℚ) (qs : Tensor) (ns : Nat) (bins : Option Tensor)
    (key : Option String) :
    postState (q.predict y) q = q ∧
    postState (q.cdf y) q = q ∧
    postState (q.pdf y) q = q ∧
    postState (q.sample_posterior y ns) q = q ∧
    postState (q.sample_posterior_gaussian_fit y ns) q = q ∧
    postState (q.posterior_mean y) q = q ∧
    postState (q.crps y yt) q = q ∧
    postState (q.probability_larger_than y thr) q = q ∧
    postState (q.probability_less_than y thr) q = q ∧
    postState (q.posterior_quantiles y qs) q = q ∧
    postState (d.predict y) d = d ∧
    postState (d.cdf y) d = d ∧
    postState (d.pdf y) d = d ∧
    postState (d.sample_posterior y ns) d = d ∧
    postState (d.sample_posterior_gaussian_fit y ns) d = d ∧
    postState (d.posterior_mean y) d = d ∧
    postState (d.crps y yt) d = d ∧
    postState (d.probability_larger_than y thr) d = d ∧
    postState (d.probability_less_than y thr) d = d ∧
    postState (d.posterior_quantiles y qs) d = d ∧
    postState (d.post_process_prediction yt bins key) d = d ∧
    postState (me.predict y) me = me ∧
    postState (me.posterior_mean y) me = me :=
  ⟨postState_attach _ _, postState_attach _ _, postState_attach _ _,
   postState_attach _ _, postState_attach _ _, postState_attach _ _,
   postState_attach _ _, postState_attach _ _, postState_attach _ _,
   postState_attach _ _, postState_attach _ _, postState_attach _ _,
   postState_attach _ _, postState_attach _ _, postState_attach _ _,
   postState_attach _ _, postState_attach _ _, postState_attach _ _,
   postState_attach _ _, postState_attach _ _, postState_attach _ _,
   postState_attach _ _, postState_attach _ _⟩

/-- C9: constructing Density with any non-None bin_axis argument leaves
the bin_axis attribute unset, so every subsequent operation that reads
self.bin_axis raises AttributeError. -/
theorem density_explicit_bin_axis_attribute_error
    (bins : BinSpec) (ax : Int) (y : Tensor) (yt : Prediction)
    (thr : Option ℚ) (qs : Tensor) (ns : Nat) :
    (Density.init bins (some ax)).bin_axis = none ∧
    (Density.init bins (some ax)).predict y = Except.error (Err.attributeError "bin_axis") ∧
    (Density.init bins (some ax)).cdf y = Except.error (Err.attributeError "bin_axis") ∧
    (Density.init bins (some ax)).pdf y = Except.error (Err.attributeError "bin_axis") ∧
    (Density.init bins (some ax)).sample_posterior y ns = Except.error (Err.attributeError "bin_axis") ∧
    (Density.init bins (some ax)).sample_posterior_gaussian_fit y ns = Except.error (Err.attributeError "bin_axis") ∧
    (Density.init bins (some ax)).posterior_mean y = Except.error (Err.attributeError "bin_axis") ∧
    (Density.init bins (some ax)).crps y yt = Except.error (Err.attributeError "bin_axis") ∧
    (Density.init bins (some ax)).probability_larger_than y thr = Except.error (Err.attributeError "bin_axis") ∧
    (Density.init bins (some ax)).probability_less_than y thr = Except.error (Err.attributeError "bin_axis") ∧
    (Density.init bins (some ax)).posterior_quantiles y qs = Except.error (Err.attributeError "bin_axis") :=
  ⟨rfl, rfl, rfl, rfl, rfl, rfl, rfl, rfl, rfl, rfl, rfl⟩

/-- C2: every distributional query method raises ValueError when both x
and y_pred are missing, before any dispatch; when only x is given the
method proceeds by an internal predict whose result is used as y_pred. -/
theorem mrnn_query_requires_x_or_y_pred
    (m : MRNN) (key : Option String) (ns : Nat) (thr : Option ℚ)
    (ytp : Option Prediction) (qso : Option Tensor) (xv : Tensor) :
    (m.cdf none none key = Except.error (Err.valueError "One of the input arguments x or y_pred must be  provided.") ∧
     m.pdf none none key = Except.error (Err.valueError "One of the input arguments x or y_pred must be  provided.") ∧
     m.sample_posterior none none ns key = Except.error (Err.valueError "One of the input arguments x or y_pred must be  provided.") ∧
     m.sample_posterior_gaussian_fit none none ns key = Except.error (Err.valueError "One of the input arguments x or y_pred must be  provided.") ∧
     m.posterior_mean none none key = Except.error (Err.valueError "One of the input arguments x or y_pred must be  provided.") ∧
     m.crps none none ytp key = Except.error (Err.valueError "One of the input arguments x or y_pred must be  provided.") ∧
     m.probability_larger_than none thr none key = Except.error (Err.valueError "One of the input arguments x or y_pred must be  provided.") ∧
     m.probability_less_than none thr none key = Except.error (Err.valueError "One of the input arguments x or y_pred must be  provided.") ∧
     m.posterior_quantiles none none qso key = Except.error (Err.valueError "One of the keyword arguments x or y_pred must be provided.")) ∧
    (m.cdf (some xv) none key = (m.predict xv >>= fun yp => m.cdf none (some yp) key) ∧
     m.pdf (some xv) none key = (m.predict xv >>= fun yp => m.pdf none (some yp) key) ∧
     m.sample_posterior (some xv) none ns key = (m.predict xv >>= fun yp => m.sample_posterior none (some yp) ns key) ∧
     m.sample_posterior_gaussian_fit (some xv) none ns key = (m.predict xv >>= fun yp => m.sample_posterior_gaussian_fit none (some yp) ns key) ∧
     m.posterior_mean (some xv) none key = (m.predict xv >>= fun yp => m.posterior_mean none (some yp) key) ∧
     m.crps (some xv) none ytp key = (m.predict xv >>= fun yp => m.crps none (some yp) ytp key) ∧
     m.probability_larger_than (some xv) thr none key = (m.predict xv >>= fun yp => m.probability_larger_than none thr (some yp) key) ∧
     m.probability_less_than (some xv) thr none key = (m.predict xv >>= fun yp => m.probability_less_than none thr (some yp) key) ∧
     m.posterior_quantiles (some xv) none qso key = (m.predict xv >>= fun yp => m.posterior_quantiles none (some yp) qso key)) :=
  ⟨⟨rfl, rfl, rfl, rfl, rfl, rfl, rfl, rfl, rfl⟩,
   ⟨rfl, rfl, rfl, rfl, rfl, rfl, rfl, rfl, rfl⟩⟩

/-- C4: in single-output (non-dict) mode every distributional query
method looks the key up in the target mapping; a None key or a key
absent from the mapping makes the call fail with a KeyError. -/
theorem mrnn_single_output_key_lookup
    (m : MRNN) (t : Tensor) (key : Option String) (e : Err)
    (ns : Nat) (thr : ℚ) (ytp : Prediction) (qs : Tensor)
    (h : lookupLoss m.losses key = Except.error e) :
    m.cdf none (some (Prediction.tensor t)) key = Except.error e ∧
    m.pdf none (some (Prediction.tensor t)) key = Except.error e ∧
    m.sample_posterior none (some (Prediction.tensor t)) ns key = Except.error e ∧
    m.sample_posterior_gaussian_fit none (some (Prediction.tensor t)) ns key = Except.error e ∧
    m.posterior_mean none (some (Prediction.tensor t)) key = Except.error e ∧
    m.crps none (some (Prediction.tensor t)) (some ytp) key = Except.error e ∧
    m.probability_larger_than none (some thr) (some (Prediction.tensor t)) key = Except.error e ∧
    m.probability_less_than none (some thr) (some (Prediction.tensor t)) key = Except.error e ∧
    m.posterior_quantiles none (some (Prediction.tensor t)) (some qs) key = Except.error e ∧
    lookupLoss m.losses none = Except.error (Err.keyError "None") ∧
    (∀ k, m.losses.lookup k = none → lookupLoss m.losses (some k) = Except.error (Err.keyError k)) := by
  refine ⟨?_, ?_, ?_, ?_, ?_, ?_, ?_, ?_, ?_, rfl, ?_⟩
  · rw [show m.cdf none (some (Prediction.tensor t)) key
        = lookupLoss m.losses key >>= (fun loss => (Target.callCdf loss t).map MRes.single) from rfl, h]
    rfl
  · rw [show m.pdf none (some (Prediction.tensor t)) key
        = lookupLoss m.losses key >>= (fun loss => (Target.callPdf loss t).map MRes.single) from rfl, h]
    rfl
  · rw [show m.sample_posterior none (some (Prediction.tensor t)) ns key
        = lookupLoss m.losses key >>= (fun loss => (Target.callSamplePosterior loss t ns).map MRes.single) from rfl, h]
    rfl
  · rw [show m.sample_posterior_gaussian_fit none (some (Prediction.tensor t)) ns key
        = lookupLoss m.losses key >>= (fun loss => (Target.callSampleGaussianFit loss t ns).map MRes.single) from rfl, h]
    rfl
  · rw [show m.posterior_mean none (some (Prediction.tensor t)) key
        = lookupLoss m.losses key >>= (fun loss => (Target.callPosteriorMean loss t).map MRes.single) from rfl, h]
    rfl
  · rw [show m.crps none (some (Prediction.tensor t)) (some ytp) key
        = lookupLoss m.losses key >>= (fun loss =>
            if loss.hasattr "crps" then (Target.callCrps loss t ytp).map MRes.single
            else pure (MRes.single RVal.none)) from rfl, h]
    rfl
  · rw [show m.probability_larger_than none (some thr) (some (Prediction.tensor t)) key
        = lookupLoss m.losses key >>= (fun loss =>
            if loss.hasattr "probability_larger_than" then
              (Target.callProbabilityLargerThan loss t (some thr)).map MRes.single
            else pure (MRes.single RVal.none)) from rfl, h]
    rfl
  · rw [show m.probability_less_than none (some thr) (some (Prediction.tensor t)) key
        = lookupLoss m.losses key >>= (fun loss =>
            if loss.hasattr "probability_less_than" then
              (Target.callProbabilityLessThan loss t (some thr)).map MRes.single
            else pure (MRes.single RVal.none)) from rfl, h]
    rfl
  · rw [show m.posterior_quantiles none (some (Prediction.tensor t)) (some qs) key
        = lookupLoss m.losses key >>= (fun loss =>
            if loss.hasattr "posterior_quantiles" then
              (Target.callPosteriorQuantiles loss t qs).map MRes.single
            else pure (MRes.single RVal.none)) from rfl, h]
    rfl
  · intro k hk
    rw [lookupLoss, hk]

/-- Witness for C4 at the two-key model: the key zz is not in the
mapping, so each query fails with KeyError zz. -/
theorem mrnn_single_output_key_lookup_witness :
    mAB.cdf none (some (Prediction.tensor [2, 9])) (some "zz") = Except.error (Err.keyError "zz") ∧
    mAB.pdf none (some (Prediction.tensor [2, 9])) (some "zz") = Except.error (Err.keyError "zz") ∧
    mAB.sample_posterior none (some (Prediction.tensor [2, 9])) 3 (some "zz") = Except.error (Err.keyError "zz") ∧
    mAB.sample_posterior_gaussian_fit none (some (Prediction.tensor [2, 9])) 3 (some "zz") = Except.error (Err.keyError "zz") ∧
    mAB.posterior_mean none (some (Prediction.tensor [2, 9])) (some "zz") = Except.error (Err.keyError "zz") ∧
    mAB.crps none (some (Prediction.tensor [2, 9])) (some (Prediction.tensor [3])) (some "zz") = Except.error (Err.keyError "zz") ∧
    mAB.probability_larger_than none (some 1) (some (Prediction.tensor [2, 9])) (some "zz") = Except.error (Err.keyError "zz") ∧
    mAB.probability_less_than none (some 1) (some (Prediction.tensor [2, 9])) (some "zz") = Except.error (Err.keyError "zz") ∧
    mAB.posterior_quantiles none (some (Prediction.tensor [2, 9])) (some [1/2]) (some "zz") = Except.error (Err.keyError "zz") ∧
    lookupLoss mAB.losses none = Except.error (Err.keyError "None") ∧
    (∀ k, mAB.losses.lookup k = none → lookupLoss mAB.losses (some k) = Except.error (Err.keyError k)) :=
  mrnn_single_output_key_lookup mAB [2, 9] (some "zz") (Err.keyError "zz")
    3 1 (Prediction.tensor [3]) [1/2] (by rfl)

/-- C10: in single-output mode, crps, probability_larger_than,
probability_less_than and posterior_quantiles guard the capability with
hasattr and return None when unsupported, whereas cdf, pdf,
sample_posterior, sample_posterior_gaussian_fit and posterior_mean call
the method unconditionally, so a missing capability surfaces as an
AttributeError (posterior_mean is invoked unconditionally as well, but
every representation supplies it, so the Mean key succeeds). -/
theorem mrnn_single_output_unsupported_signaling
    (m : MRNN) (t : Tensor) (key : Option String) (mm : Mean)
    (ns : Nat) (thr : ℚ) (ytp : Prediction) (qs : Tensor)
    (h : lookupLoss m.losses key = Except.ok (Target.mean mm)) :
    m.crps none (some (Prediction.tensor t)) (some ytp) key = Except.ok (MRes.single RVal.none) ∧
    m.probability_larger_than none (some thr) (some (Prediction.tensor t)) key = Except.ok (MRes.single RVal.none) ∧
    m.probability_less_than none (some thr) (some (Prediction.tensor t)) key = Except.ok (MRes.single RVal.none) ∧
    m.posterior_quantiles none (some (Prediction.tensor t)) (some qs) key = Except.ok (MRes.single RVal.none) ∧
    m.cdf none (some (Prediction.tensor t)) key = Except.error (Err.attributeError "cdf") ∧
    m.pdf none (some (Prediction.tensor t)) key = Except.error (Err.attributeError "pdf") ∧
    m.sample_posterior none (some (Prediction.tensor t)) ns key = Except.error (Err.attributeError "sample_posterior") ∧
    m.sample_posterior_gaussian_fit none (some (Prediction.tensor t)) ns key = Except.error (Err.attributeError "sample_posterior_gaussian_fit") ∧
    m.posterior_mean none (some (Prediction.tensor t)) key = Except.ok (MRes.single (RVal.tensor t)) := by
  refine ⟨?_, ?_, ?_, ?_, ?_, ?_, ?_, ?_, ?_⟩
  · rw [show m.crps none (some (Prediction.tensor t)) (some ytp) key
        = lookupLoss m.losses key >>= (fun loss =>
            if loss.hasattr "crps" then (Target.callCrps loss t ytp).map MRes.single
            else pure (MRes.single RVal.none)) from rfl, h]
    rfl
  · rw [show m.probability_larger_than none (some thr) (some (Prediction.tensor t)) key
        = lookupLoss m.losses key >>= (fun loss =>
            if loss.hasattr "probability_larger_than" then
              (Target.callProbabilityLargerThan loss t (some thr)).map MRes.single
            else pure (MRes.single RVal.none)) from rfl, h]
    rfl
  · rw [show m.probability_less_than none (some thr) (some (Prediction.tensor t)) key
        = lookupLoss m.losses key >>= (fun loss =>
            if loss.hasattr "probability_less_than" then
              (Target.callProbabilityLessThan loss t (some thr)).map MRes.single
            else pure (MRes.single RVal.none)) from rfl, h]
    rfl
  · rw [show m.posterior_quantiles none (some (Prediction.tensor t)) (some qs) key
        = lookupLoss m.losses key >>= (fun loss =>
            if loss.hasattr "posterior_quantiles" then
              (Target.callPosteriorQuantiles loss t qs).map MRes.single
            else pure (MRes.single RVal.none)) from rfl, h]
    rfl
  · rw [show m.cdf none (some (Prediction.tensor t)) key
        = lookupLoss m.losses key >>= (fun loss => (Target.callCdf loss t).map MRes.single) from rfl, h]
    rfl
  · rw [show m.pdf none (some (Prediction.tensor t)) key
        = lookupLoss m.losses key >>= (fun loss => (Target.callPdf loss t).map MRes.single) from rfl, h]
    rfl
  · rw [show m.sample_posterior none (some (Prediction.tensor t)) ns key
        = lookupLoss m.losses key >>= (fun loss => (Target.callSamplePosterior loss t ns).map MRes.single) from rfl, h]
    rfl
  · rw [show m.sample_posterior_gaussian_fit none (some (Prediction.tensor t)) ns key
        = lookupLoss m.losses key >>= (fun loss => (Target.callSampleGaussianFit loss t ns).map MRes.single) from rfl, h]
    rfl
  · rw [show m.posterior_mean none (some (Prediction.tensor t)) key
        = lookupLoss m.losses key >>= (fun loss => (Target.callPosteriorMean loss t).map MRes.single) from rfl, h]
    rfl

/-- Witness for C10 at the two-key model with the Mean key b. -/
theorem mrnn_single_output_unsupported_signaling_witness :
    mAB.crps none (some (Prediction.tensor [5])) (some (Prediction.tensor [4])) (some "b") = Except.ok (MRes.single RVal.none) ∧
    mAB.probability_larger_than none (some 1) (some (Prediction.tensor [5])) (some "b") = Except.ok (MRes.single RVal.none) ∧
    mAB.probability_less_than none (some 1) (some (Prediction.tensor [5])) (some "b") = Except.ok (MRes.single RVal.none) ∧
    mAB.posterior_quantiles none (some (Prediction.tensor [5])) (some [1/2]) (some "b") = Except.ok (MRes.single RVal.none) ∧
    mAB.cdf none (some (Prediction.tensor [5])) (some "b") = Except.error (Err.attributeError "cdf") ∧
    mAB.pdf none (some (Prediction.tensor [5])) (some "b") = Except.error (Err.attributeError "pdf") ∧
    mAB.sample_posterior none (some (Prediction.tensor [5])) 3 (some "b") = Except.error (Err.attributeError "sample_posterior") ∧
    mAB.sample_posterior_gaussian_fit none (some (Prediction.tensor [5])) 3 (some "b") = Except.error (Err.attributeError "sample_posterior_gaussian_fit") ∧
    mAB.posterior_mean none (some (Prediction.tensor [5])) (some "b") = Except.ok (MRes.single (RVal.tensor [5])) :=
  mrnn_single_output_unsupported_signaling mAB [5] (some "b") Mean.mk
    3 1 (Prediction.tensor [4]) [1/2] (by rfl)

/-- Counterexample to C3: MRNN.probability_less_than performs no check
on the threshold y; with y None and a Mean-typed key the call returns
normally (None), it does not raise a usage error. -/
theorem mrnn_probability_less_than_no_threshold_check_cex :
    mAB.probability_less_than none none (some (Prediction.tensor [5])) (some "b")
      = Except.ok (MRes.single RVal.none) := rfl

/-- C3 amended: crps raises ValueError when y_true is missing,
posterior_quantiles raises ValueError when quantiles is missing, and
probability_larger_than raises ValueError when the threshold y is
missing; probability_less_than, however, performs no such check and
proceeds with y equal to None. -/
theorem mrnn_required_argument_checks_amended
    (m : MRNN) (yp : Prediction) (key : Option String) (t : Tensor) (mm : Mean)
    (h : lookupLoss m.losses key = Except.ok (Target.mean mm)) :
    m.crps none (some yp) none key
      = Except.error (Err.valueError "The y_true argument must be provided to calculate the CRPS provided.") ∧
    m.posterior_quantiles none (some yp) none key
      = Except.error (Err.valueError "The quantiles keyword argument must be provided tocalculate the posterior quantiles.") ∧
    m.probability_larger_than none none (some yp) key
      = Except.error (Err.valueError "The y argument must be provided to compute the  probability.") ∧
    m.probability_less_than none none (some (Prediction.tensor t)) key
      = Except.ok (MRes.single RVal.none) := by
  refine ⟨rfl, rfl, rfl, ?_⟩
  rw [show m.probability_less_than none none (some (Prediction.tensor t)) key
      = lookupLoss m.losses key >>= (fun loss =>
          if loss.hasattr "probability_less_than" then
            (Target.callProbabilityLessThan loss t none).map MRes.single
          else pure (MRes.single RVal.none)) from rfl, h]
  rfl

/-- Witness for the amended C3 at the two-key model. -/
theorem mrnn_required_argument_checks_amended_witness :
    mAB.crps none (some (Prediction.dict entriesAB)) none (some "b")
      = Except.error (Err.valueError "The y_true argument must be provided to calculate the CRPS provided.") ∧
    mAB.posterior_quantiles none (some (Prediction.dict entriesAB)) none (some "b")
      = Except.error (Err.valueError "The quantiles keyword argument must be provided tocalculate the posterior quantiles.") ∧
    mAB.probability_larger_than none none (some (Prediction.dict entriesAB)) (some "b")
      = Except.error (Err.valueError "The y argument must be provided to compute the  probability.") ∧
    mAB.probability_less_than none none (some (Prediction.tensor [5])) (some "b")
      = Except.ok (MRes.single RVal.none) :=
  mrnn_required_argument_checks_amended mAB (Prediction.dict entriesAB) (some "b") [5] Mean.mk (by rfl)

/-- C5: for the Quantiles representation the exceedance probabilities
are complementary, probability_larger_than + probability_less_than = 1;
for the Density representation the source of probability_less_than
omits the required bins argument of the density routine, so every call
raises a TypeError instead of returning F(y). -/
theorem probability_sum_quantiles_holds_density_raises :
    (∀ (qs ys : Tensor) (y : ℚ), 2 ≤ ys.length →
      ∃ a b, Quantiles.probability_larger_than (Quantiles.init qs) ys (some y)
               = Except.ok (RVal.scalar a, Quantiles.init qs) ∧
             Quantiles.probability_less_than (Quantiles.init qs) ys (some y)
               = Except.ok (RVal.scalar b, Quantiles.init qs) ∧
             a + b = 1) ∧
    Density.probability_less_than dFlat [1/2, 1/2] (some 1)
      = Except.error (Err.typeError "qd.probability_less_than missing required positional argument bins") := by
  constructor
  · intro qs ys y h
    obtain ⟨y1, y2, rest, rfl⟩ := exists_two_cons h
    refine ⟨1 - interpPL ((((2 * y1 - y2) :: extendHigh (y1 :: y2 :: rest)).zip (0 :: qs ++ [1]))) y,
            interpPL ((((2 * y1 - y2) :: extendHigh (y1 :: y2 :: rest)).zip (0 :: qs ++ [1]))) y,
            rfl, rfl, by ring⟩
  · rfl

/-- Witness for C5 on concrete quantile data. -/
theorem probability_sum_quantiles_holds_density_raises_witness :
    ∃ a b, Quantiles.probability_larger_than (Quantiles.init [1/10, 9/10]) [2, 9] (some 5)
             = Except.ok (RVal.scalar a, Quantiles.init [1/10, 9/10]) ∧
           Quantiles.probability_less_than (Quantiles.init [1/10, 9/10]) [2, 9] (some 5)
             = Except.ok (RVal.scalar b, Quantiles.init [1/10, 9/10]) ∧
           a + b = 1 :=
  probability_sum_quantiles_holds_density_raises.1 [1/10, 9/10] [2, 9] 5 (by decide)

/-- Counterexample to C7: with a per-key bins mapping, Density.cdf does
not select an edge set by key (it takes no key) and does not raise a
lookup error; the mapping reaches the numeric routine and raises a
TypeError. -/
theorem density_keyed_bins_no_key_selection_cex :
    Density.cdf dKeyed [1/2, 1/2]
      = Except.error (Err.typeError "a mapping of bins is not a valid array of bin edges") := rfl

/-- C7 amended: only post_process_prediction selects the bin-edge set
by output key when bins is a per-key mapping, raising KeyError when the
key is absent or None and computing with the selected edges otherwise;
every other operation takes no key, performs no selection, and fails
with a TypeError when bins is a mapping (probability_less_than with its
own missing-bins TypeError). -/
theorem density_keyed_bins_selection_amended
    (mm : List (String × Tensor)) (yv : Tensor) (k : String) (e : Tensor)
    (thr : ℚ) (qs : Tensor) (ns : Nat) :
    (∀ k2, mm.lookup k2 = none →
      Density.post_process_prediction (Density.init (BinSpec.keyed mm) none)
          (Prediction.tensor yv) none (some k2)
        = Except.error (Err.keyError k2)) ∧
    Density.post_process_prediction (Density.init (BinSpec.keyed mm) none)
        (Prediction.tensor yv) none none
      = Except.error (Err.keyError "None") ∧
    (mm.lookup k = some e →
      (Density.post_process_prediction (Density.init (BinSpec.keyed mm) none)
          (Prediction.tensor yv) none (some k)).map Prod.fst
        = (Density.post_process_prediction (Density.init (BinSpec.flat e) none)
            (Prediction.tensor yv) none (some k)).map Prod.fst) ∧
    Density.predict (Density.init (BinSpec.keyed mm) none) yv
      = Except.error (Err.typeError "a mapping of bins is not a valid array of bin edges") ∧
    Density.cdf (Density.init (BinSpec.keyed mm) none) yv
      = Except.error (Err.typeError "a mapping of bins is not a valid array of bin edges") ∧
    Density.pdf (Density.init (BinSpec.keyed mm) none) yv
      = Except.error (Err.typeError "a mapping of bins is not a valid array of bin edges") ∧
    Density.sample_posterior (Density.init (BinSpec.keyed mm) none) yv ns
      = Except.error (Err.typeError "a mapping of bins is not a valid array of bin edges") ∧
    Density.sample_posterior_gaussian_fit (Density.init (BinSpec.keyed mm) none) yv ns
      = Except.error (Err.typeError "a mapping of bins is not a valid array of bin edges") ∧
    Density.posterior_mean (Density.init (BinSpec.keyed mm) none) yv
      = Except.error (Err.typeError "a mapping of bins is not a valid array of bin edges") ∧
    Density.crps (Density.init (BinSpec.keyed mm) none) yv (Prediction.tensor yv)
      = Except.error (Err.typeError "a mapping of bins is not a valid array of bin edges") ∧
    Density.probability_larger_than (Density.init (BinSpec.keyed mm) none) yv (some thr)
      = Except.error (Err.typeError "a mapping of bins is not a valid array of bin edges") ∧
    Density.probability_less_than (Density.init (BinSpec.keyed mm) none) yv (some thr)
      = Except.error (Err.typeError "qd.probability_less_than missing required positional argument bins") ∧
    Density.posterior_quantiles (Density.init (BinSpec.keyed mm) none) yv qs
      = Except.error (Err.typeError "a mapping of bins is not a valid array of bin edges") := by
  refine ⟨?_, rfl, ?_, rfl, rfl, rfl, rfl, rfl, rfl, rfl, rfl, rfl, rfl⟩
  · intro k2 hk
    simp only [Density.post_process_prediction, Density.init, attach, hk,
      except_bind_err, except_map_err]
  · intro hk
    simp only [Density.post_process_prediction, Density.init, attach, hk,
      except_pure_eq, except_bind_ok, except_map_map]
    rfl

/-- Witness for the amended C7 on a concrete keyed-bins Density. -/
theorem density_keyed_bins_selection_amended_witness :
    Density.post_process_prediction (Density.init (BinSpec.keyed [("a", [0, 1, 2])]) none)
        (Prediction.tensor [1, 2]) none (some "zz")
      = Except.error (Err.keyError "zz") ∧
    (Density.post_process_prediction (Density.init (BinSpec.keyed [("a", [0, 1, 2])]) none)
        (Prediction.tensor [1, 2]) none (some "a")).map Prod.fst
      = (Density.post_process_prediction (Density.init (BinSpec.flat [0, 1, 2]) none)
          (Prediction.tensor [1, 2]) none (some "a")).map Prod.fst :=
  ⟨(density_keyed_bins_selection_amended [("a", [0, 1, 2])] [1, 2] "a" [0, 1, 2] 1 [1/2] 2).1 "zz" (by rfl),
   (density_keyed_bins_selection_amended [("a", [0, 1, 2])] [1, 2] "a" [0, 1, 2] 1 [1/2] 2).2.2.1 (by rfl)⟩

/-- C6: in the multi-output branch MRNN.post_process_prediction hands
each supported representation the whole y_pred mapping, not the per-key
slice, and forwards the caller-supplied key, not the iteration key; on
a Density key this makes the call fail (softmax of a mapping) where the
per-key slice would succeed, and with keyed bins the forwarded None key
raises KeyError where the iteration key would select the edges. -/
theorem mrnn_post_process_passes_full_mapping :
    (∀ (m : MRNN) (d : Density) (k : String) (v : Tensor) (bins : Option Tensor)
       (key : Option String),
      m.losses.lookup k = some (Target.density d) →
      m.post_process_prediction (Prediction.dict [(k, v)]) bins key
        = (Target.callPostProcess (Target.density d) (Prediction.dict [(k, v)]) bins key).map
            (fun r => MRes.table [(k, r)])) ∧
    Density.post_process_prediction dFlat (Prediction.dict [("a", [1, 2])]) none none
      = Except.error (Err.typeError "softmax expects a tensor, not a mapping") ∧
    isOk (Density.post_process_prediction dFlat (Prediction.tensor [1, 2]) none none) = true ∧
    mKeyed.post_process_prediction (Prediction.dict [("a", [1, 2])]) none none
      = Except.error (Err.keyError "None") ∧
    isOk (Density.post_process_prediction dKeyed (Prediction.tensor [1, 2]) none (some "a")) = true := by
  refine ⟨?_, rfl, rfl, rfl, rfl⟩
  intro m d k v bins key0 h
  have hattr : Target.hasattr (Target.density d) "post_process_prediction" = true := rfl
  rw [show m.post_process_prediction (Prediction.dict [(k, v)]) bins key0
      = (fanOut m.losses "post_process_prediction"
          (fun loss _ _ => Target.callPostProcess loss (Prediction.dict [(k, v)]) bins key0)
          [(k, v)]).map MRes.table from rfl]
  cases hc : Target.callPostProcess (Target.density d) (Prediction.dict [(k, v)]) bins key0 with
  | error er => simp [fanOut, h, hattr, hc]
  | ok r => simp [fanOut, h, hattr, hc]

/-- Witness for C6 on the keyed-bins single-key model. -/
theorem mrnn_post_process_passes_full_mapping_witness :
    mKeyed.post_process_prediction (Prediction.dict [("a", [1, 2])]) none (some "a")
      = (Target.callPostProcess (Target.density dKeyed) (Prediction.dict [("a", [1, 2])]) none (some "a")).map
          (fun r => MRes.table [("a", r)]) :=
  mrnn_post_process_passes_full_mapping.1 mKeyed dKeyed "a" [1, 2] none (some "a") (by rfl)

/-- C1: on a multi-output prediction every distributional query method
returns a mapping whose keys are exactly the prediction keys whose
target representation has the queried method attribute; unsupported
keys are silently omitted instead of failing the call (hypotheses: all
prediction keys are in the target mapping and the supported per-key
calls return normally). -/
theorem mrnn_multi_output_fanout_keys
    (m : MRNN) (entries : List (String × Tensor)) (key : Option String)
    (ns : Nat) (thr : ℚ) (yt : Prediction) (qs : Tensor)
    (h0 : lookupsOk m.losses entries = true)
    (hcdf : callsOk m.losses "cdf" (fun loss _ v => Target.callCdf loss v) entries = true)
    (hpdf : callsOk m.losses "pdf" (fun loss _ v => Target.callPdf loss v) entries = true)
    (hsp : callsOk m.losses "sample_posterior" (fun loss _ v => Target.callSamplePosterior loss v ns) entries = true)
    (hgf : callsOk m.losses "sample_posterior_gaussian_fit" (fun loss _ v => Target.callSampleGaussianFit loss v ns) entries = true)
    (hpm : callsOk m.losses "posterior_mean" (fun loss _ v => Target.callPosteriorMean loss v) entries = true)
    (hcr : callsOk m.losses "crps" (fun loss k v => indexPrediction yt k >>= fun ytk => Target.callCrps loss v (Prediction.tensor ytk)) entries = true)
    (hpl : callsOk m.losses "probability_larger_than" (fun loss _ v => Target.callProbabilityLargerThan loss v (some thr)) entries = true)
    (hps : callsOk m.losses "probability_less_than" (fun loss _ v => Target.callProbabilityLessThan loss v (some thr)) entries = true)
    (hpq : callsOk m.losses "posterior_quantiles" (fun loss _ v => Target.callPosteriorQuantiles loss v qs) entries = true) :
    (∃ rs, m.cdf none (some (Prediction.dict entries)) key = Except.ok (MRes.table rs) ∧
      rs.map Prod.fst = (entries.filter fun kv => supported m.losses "cdf" kv.1).map Prod.fst) ∧
    (∃ rs, m.pdf none (some (Prediction.dict entries)) key = Except.ok (MRes.table rs) ∧
      rs.map Prod.fst = (entries.filter fun kv => supported m.losses "pdf" kv.1).map Prod.fst) ∧
    (∃ rs, m.sample_posterior none (some (Prediction.dict entries)) ns key = Except.ok (MRes.table rs) ∧
      rs.map Prod.fst = (entries.filter fun kv => supported m.losses "sample_posterior" kv.1).map Prod.fst) ∧
    (∃ rs, m.sample_posterior_gaussian_fit none (some (Prediction.dict entries)) ns key = Except.ok (MRes.table rs) ∧
      rs.map Prod.fst = (entries.filter fun kv => supported m.losses "sample_posterior_gaussian_fit" kv.1).map Prod.fst) ∧
    (∃ rs, m.posterior_mean none (some (Prediction.dict entries)) key = Except.ok (MRes.table rs) ∧
      rs.map Prod.fst = (entries.filter fun kv => supported m.losses "posterior_mean" kv.1).map Prod.fst) ∧
    (∃ rs, m.crps none (some (Prediction.dict entries)) (some yt) key = Except.ok (MRes.table rs) ∧
      rs.map Prod.fst = (entries.filter fun kv => supported m.losses "crps" kv.1).map Prod.fst) ∧
    (∃ rs, m.probability_larger_than none (some thr) (some (Prediction.dict entries)) key = Except.ok (MRes.table rs) ∧
      rs.map Prod.fst = (entries.filter fun kv => supported m.losses "probability_larger_than" kv.1).map Prod.fst) ∧
    (∃ rs, m.probability_less_than none (some thr) (some (Prediction.dict entries)) key = Except.ok (MRes.table rs) ∧
      rs.map Prod.fst = (entries.filter fun kv => supported m.losses "probability_less_than" kv.1).map Prod.fst) ∧
    (∃ rs, m.posterior_quantiles none (some (Prediction.dict entries)) (some qs) key = Except.ok (MRes.table rs) ∧
      rs.map Prod.fst = (entries.filter fun kv => supported m.losses "posterior_quantiles" kv.1).map Prod.fst) := by
  refine ⟨?_, ?_, ?_, ?_, ?_, ?_, ?_, ?_, ?_⟩
  · obtain ⟨rs, hfo, hkeys⟩ := fanOut_ok m.losses "cdf" _ entries h0 hcdf
    refine ⟨rs, ?_, hkeys⟩
    rw [show m.cdf none (some (Prediction.dict entries)) key
        = (fanOut m.losses "cdf" (fun loss _ v => Target.callCdf loss v) entries).map MRes.table from rfl, hfo]
    rfl
  · obtain ⟨rs, hfo, hkeys⟩ := fanOut_ok m.losses "pdf" _ entries h0 hpdf
    refine ⟨rs, ?_, hkeys⟩
    rw [show m.pdf none (some (Prediction.dict entries)) key
        = (fanOut m.losses "pdf" (fun loss _ v => Target.callPdf loss v) entries).map MRes.table from rfl, hfo]
    rfl
  · obtain ⟨rs, hfo, hkeys⟩ := fanOut_ok m.losses "sample_posterior" _ entries h0 hsp
    refine ⟨rs, ?_, hkeys⟩
    rw [show m.sample_posterior none (some (Prediction.dict entries)) ns key
        = (fanOut m.losses "sample_posterior" (fun loss _ v => Target.callSamplePosterior loss v ns) entries).map MRes.table from rfl, hfo]
    rfl
  · obtain ⟨rs, hfo, hkeys⟩ := fanOut_ok m.losses "sample_posterior_gaussian_fit" _ entries h0 hgf
    refine ⟨rs, ?_, hkeys⟩
    rw [show m.sample_posterior_gaussian_fit none (some (Prediction.dict entries)) ns key
        = (fanOut m.losses "sample_posterior_gaussian_fit" (fun loss _ v => Target.callSampleGaussianFit loss v ns) entries).map MRes.table from rfl, hfo]
    rfl
  · obtain ⟨rs, hfo, hkeys⟩ := fanOut_ok m.losses "posterior_mean" _ entries h0 hpm
    refine ⟨rs, ?_, hkeys⟩
    rw [show m.posterior_mean none (some (Prediction.dict entries)) key
        = (fanOut m.losses "posterior_mean" (fun loss _ v => Target.callPosteriorMean loss v) entries).map MRes.table from rfl, hfo]
    rfl
  · obtain ⟨rs, hfo, hkeys⟩ := fanOut_ok m.losses "crps" _ entries h0 hcr
    refine ⟨rs, ?_, hkeys⟩
    rw [show m.crps none (some (Prediction.dict entries)) (some yt) key
        = (fanOut m.losses "crps" (fun loss k v => indexPrediction yt k >>= fun ytk => Target.callCrps loss v (Prediction.tensor ytk)) entries).map MRes.table from rfl, hfo]
    rfl
  · obtain ⟨rs, hfo, hkeys⟩ := fanOut_ok m.losses "probability_larger_than" _ entries h0 hpl
    refine ⟨rs, ?_, hkeys⟩
    rw [show m.probability_larger_than none (some thr) (some (Prediction.dict entries)) key
        = (fanOut m.losses "probability_larger_than" (fun loss _ v => Target.callProbabilityLargerThan loss v (some thr)) entries).map MRes.table from rfl, hfo]
    rfl
  · obtain ⟨rs, hfo, hkeys⟩ := fanOut_ok m.losses "probability_less_than" _ entries h0 hps
    refine ⟨rs, ?_, hkeys⟩
    rw [show m.probability_less_than none (some thr) (some (Prediction.dict entries)) key
        = (fanOut m.losses "probability_less_than" (fun loss _ v => Target.callProbabilityLessThan loss v (some thr)) entries).map MRes.table from rfl, hfo]
    rfl
  · obtain ⟨rs, hfo, hkeys⟩ := fanOut_ok m.losses "posterior_quantiles" _ entries h0 hpq
    refine ⟨rs, ?_, hkeys⟩
    rw [show m.posterior_quantiles none (some (Prediction.dict entries)) (some qs) key
        = (fanOut m.losses "posterior_quantiles" (fun loss _ v => Target.callPosteriorQuantiles loss v qs) entries).map MRes.table from rfl, hfo]
    rfl

/-- Witness for C1 at the two-key model of the spec scenario: for cdf
the result keys are the filtered supported keys (only a), and likewise
for every other query method. -/
theorem mrnn_multi_output_fanout_keys_witness :
    (∃ rs, mAB.cdf none (some (Prediction.dict entriesAB)) none = Except.ok (MRes.table rs) ∧
      rs.map Prod.fst = (entriesAB.filter fun kv => supported mAB.losses "cdf" kv.1).map Prod.fst) ∧
    (∃ rs, mAB.pdf none (some (Prediction.dict entriesAB)) none = Except.ok (MRes.table rs) ∧
      rs.map Prod.fst = (entriesAB.filter fun kv => supported mAB.losses "pdf" kv.1).map Prod.fst) ∧
    (∃ rs, mAB.sample_posterior none (some (Prediction.dict entriesAB)) 2 none = Except.ok (MRes.table rs) ∧
      rs.map Prod.fst = (entriesAB.filter fun kv => supported mAB.losses "sample_posterior" kv.1).map Prod.fst) ∧
    (∃ rs, mAB.sample_posterior_gaussian_fit none (some (Prediction.dict entriesAB)) 2 none = Except.ok (MRes.table rs) ∧
      rs.map Prod.fst = (entriesAB.filter fun kv => supported mAB.losses "sample_posterior_gaussian_fit" kv.1).map Prod.fst) ∧
    (∃ rs, mAB.posterior_mean none (some (Prediction.dict entriesAB)) none = Except.ok (MRes.table rs) ∧
      rs.map Prod.fst = (entriesAB.filter fun kv => supported mAB.losses "posterior_mean" kv.1).map Prod.fst) ∧
    (∃ rs, mAB.crps none (some (Prediction.dict entriesAB)) (some ytAB) none = Except.ok (MRes.table rs) ∧
      rs.map Prod.fst = (entriesAB.filter fun kv => supported mAB.losses "crps" kv.1).map Prod.fst) ∧
    (∃ rs, mAB.probability_larger_than none (some 1) (some (Prediction.dict entriesAB)) none = Except.ok (MRes.table rs) ∧
      rs.map Prod.fst = (entriesAB.filter fun kv => supported mAB.losses "probability_larger_than" kv.1).map Prod.fst) ∧
    (∃ rs, mAB.probability_less_than none (some 1) (some (Prediction.dict entriesAB)) none = Except.ok (MRes.table rs) ∧
      rs.map Prod.fst = (entriesAB.filter fun kv => supported mAB.losses "probability_less_than" kv.1).map Prod.fst) ∧
    (∃ rs, mAB.posterior_quantiles none (some (Prediction.dict entriesAB)) (some [1/2]) none = Except.ok (MRes.table rs) ∧
      rs.map Prod.fst = (entriesAB.filter fun kv => supported mAB.losses "posterior_quantiles" kv.1).map Prod.fst) :=
  mrnn_multi_output_fanout_keys mAB entriesAB none 2 1 ytAB [1/2]
    (by decide) (by decide) (by decide) (by decide) (by decide) (by decide)
    (by decide) (by decide) (by decide) (by decide)
